import Mathlib

/-!
Verification of the wishlist service security core against its specification.
Shallow embedding of src/app (password hashing, JWT lifecycle, login rate
limiter state machine, input validators, LIKE-pattern escaping) together with
theorems settling requirements about them.
-/

set_option autoImplicit false

namespace Wishlist

/-! ### Password hashing — src/app/core/auth.py

The stored hash string is modelled abstractly by its format: a well-formed
argon2id hash of some (already truncated) password, a legacy pbkdf2_sha256
hash, or a corrupt/unrecognizable string. The two library calls the code makes
are modelled by their documented behaviour:
`argon2.PasswordHasher.verify` returns on match, raises `VerifyMismatchError`
on a well-formed argon2 hash that does not match, and raises `InvalidHash` on
a string that is not an argon2 hash; passlib's
`CryptContext(schemes=["pbkdf2_sha256"]).verify` returns a boolean for a
well-formed pbkdf2_sha256 hash and raises `UnknownHashError` otherwise. -/

/-- A Python exception escaping the password-verification code. -/
inductive PyErr where
  | unknownHash
deriving DecidableEq

/-- A stored credential hash string, classified by format. -/
inductive StoredHash where
  | argon2 (pw : List Char)
  | pbkdf2 (pw : List Char)
  | corrupt (s : List Char)
deriving DecidableEq

/-- Outcome of `argon2.PasswordHasher.verify`. -/
inductive Argon2Outcome where
  | success
  | mismatch
  | invalidHash

/-- Behaviour of `ph.verify(hashed, plain)` from the argon2 library. -/
def argon2LibVerify (hashed : StoredHash) (plain : List Char) : Argon2Outcome :=
  match hashed with
  | .argon2 pw => if plain = pw then .success else .mismatch
  | _ => .invalidHash

/-- Behaviour of passlib `pwd_context.verify(plain, hashed)` with
schemes=["pbkdf2_sha256"]: raises `UnknownHashError` on any other format. -/
def passlibVerify (plain : List Char) (hashed : StoredHash) : Except PyErr Bool :=
  match hashed with
  | .pbkdf2 pw => .ok (decide (plain = pw))
  | _ => .error .unknownHash

/-- `hash_password` (src/app/core/auth.py): truncates the password to its
first 72 characters, then produces an argon2id hash of the result. -/
def hash_password (password : List Char) : StoredHash :=
  let password := if password.length > 72 then password.take 72 else password
  .argon2 password

/-- `verify_password` (src/app/core/auth.py): tries argon2 verification;
`VerifyMismatchError` is caught and yields `false`; `InvalidHash` is caught
and falls back to the passlib pbkdf2_sha256 verifier, whose own exceptions
are not caught. -/
def verify_password (plain : List Char) (hashed : StoredHash) : Except PyErr Bool :=
  match argon2LibVerify hashed plain with
  | .success => .ok true
  | .mismatch => .ok false
  | .invalidHash => passlibVerify plain hashed

/-! ### LIKE-pattern escaping — src/app/repositories/wish.py -/

/-- Python `s.replace(c, "\\" + c)` for a single character `c`: every
occurrence of `c` gets a backslash inserted in front of it. -/
def escapeChar (c : Char) : List Char → List Char
  | [] => []
  | x :: xs => if x = c then '\\' :: x :: escapeChar c xs else x :: escapeChar c xs

/-- `escape_like_pattern` (src/app/repositories/wish.py): replaces, in this
order, backslash, `%`, `_`, `[`, `]` each by a backslash-prefixed copy. -/
def escape_like_pattern (s : List Char) : List Char :=
  escapeChar ']' (escapeChar '[' (escapeChar '_' (escapeChar '%' (escapeChar '\\' s))))

/-- `escOk c prev l` holds when every occurrence of `c` in `l` is immediately
preceded by a backslash, where `prev` is the character just before `l`. -/
def escOk (c : Char) : Option Char → List Char → Bool
  | _, [] => true
  | prev, x :: xs =>
    (decide (x ≠ c) || decide (prev = some '\\')) && escOk c (some x) xs

theorem escOk_escapeChar (c : Char) (hc : c ≠ '\\') :
    ∀ (l : List Char) (prev : Option Char), escOk c prev (escapeChar c l) = true := by
  intro l
  induction l with
  | nil => intro prev; rfl
  | cons x xs ih =>
    intro prev
    by_cases hx : x = c
    · subst hx
      have hbs : ('\\' : Char) ≠ x := fun h => hc h.symm
      simp [escapeChar, escOk, hbs, ih]
    · simp [escapeChar, hx, escOk, ih]

theorem escOk_escapeChar_preserve (c d : Char) (hc : c ≠ '\\') (hdc : d ≠ c) :
    ∀ (l : List Char) (prev : Option Char),
      escOk c prev l = true → escOk c prev (escapeChar d l) = true := by
  intro l
  induction l with
  | nil => intro prev h; exact h
  | cons x xs ih =>
    intro prev h
    rw [escOk, Bool.and_eq_true] at h
    obtain ⟨h1, h2⟩ := h
    by_cases hx : x = d
    · subst hx
      have hbs : ('\\' : Char) ≠ c := fun h => hc h.symm
      simp [escapeChar, escOk, hbs, hdc, ih _ h2]
    · simp only [escapeChar, if_neg hx, escOk, Bool.and_eq_true]
      exact ⟨h1, ih _ h2⟩

/-- C9: `escape_like_pattern` substitutes backslash first, then `%`, `_`,
`[`, `]`; consequently every `%` and every `_` in its output is immediately
preceded by a backslash, and in particular on `"100% off_now"` it yields
`"100\\% off\\_now"`, which contains `\%` and `\_` and no bare wildcard. -/
theorem escape_like_pattern_escapes_wildcards (s : List Char) :
    escOk '%' none (escape_like_pattern s) = true ∧
    escOk '_' none (escape_like_pattern s) = true ∧
    escape_like_pattern ("100% off_now".toList) = "100\\% off\\_now".toList := by
  refine ⟨?_, ?_, by decide⟩
  · have h1 : escOk '%' none (escapeChar '%' (escapeChar '\\' s)) = true :=
      escOk_escapeChar '%' (by decide) _ none
    have h2 := escOk_escapeChar_preserve '%' '_' (by decide) (by decide) _ none h1
    have h3 := escOk_escapeChar_preserve '%' '[' (by decide) (by decide) _ none h2
    exact escOk_escapeChar_preserve '%' ']' (by decide) (by decide) _ none h3
  · have h1 : escOk '_' none (escapeChar '_' (escapeChar '%' (escapeChar '\\' s))) = true :=
      escOk_escapeChar '_' (by decide) _ none
    have h2 := escOk_escapeChar_preserve '_' '[' (by decide) (by decide) _ none h1
    exact escOk_escapeChar_preserve '_' ']' (by decide) (by decide) _ none h2

/-- C10: hashing truncates to 72 characters while verification does not, so a
password of length at most 72 round-trips, while a longer password fails
verification against its own hash and only its 72-character prefix succeeds. -/
theorem verify_hash_truncation (p q : List Char)
    (hp : p.length ≤ 72) (hq : 72 < q.length) :
    verify_password p (hash_password p) = .ok true ∧
    verify_password q (hash_password q) = .ok false ∧
    verify_password (q.take 72) (hash_password q) = .ok true := by
  have hpq : ¬ p.length > 72 := by omega
  have hne : q ≠ q.take 72 := by
    intro h
    have hl := congrArg List.length h
    simp [List.length_take] at hl
    omega
  refine ⟨?_, ?_, ?_⟩
  · simp [hash_password, verify_password, argon2LibVerify, hpq]
  · simp [hash_password, verify_password, argon2LibVerify, hq, hne]
  · simp [hash_password, verify_password, argon2LibVerify, hq]

/-- Witness for C10 at passwords of length 10 and 73. -/
theorem verify_hash_truncation_witness :
    (List.replicate 10 'a').length ≤ 72 ∧ 72 < (List.replicate 73 'a').length ∧
    (verify_password (List.replicate 10 'a') (hash_password (List.replicate 10 'a')) = .ok true ∧
     verify_password (List.replicate 73 'a') (hash_password (List.replicate 73 'a')) = .ok false ∧
     verify_password ((List.replicate 73 'a').take 72) (hash_password (List.replicate 73 'a')) = .ok true) :=
  ⟨by decide, by decide,
    verify_hash_truncation (List.replicate 10 'a') (List.replicate 73 'a') (by decide) (by decide)⟩

/-- C3 counterexample: on a corrupt stored hash, `verify_password` does not
return `false`; the passlib fallback raises `UnknownHashError`, which the
function does not catch, so the exception propagates to the caller. -/
theorem verify_password_corrupt_raises :
    verify_password ['x'] (.corrupt ['z']) = .error .unknownHash ∧
    verify_password ['x'] (.corrupt ['z']) ≠ .ok false :=
  ⟨rfl, fun h => Except.noConfusion h⟩

/-- C3 amended: a mismatch on a well-formed argon2 hash returns `false`
without raising; a stored hash that is not an argon2 hash is retried with the
legacy pbkdf2_sha256 verifier, which returns the comparison result for a
well-formed pbkdf2 hash but raises on a corrupt hash, and that exception
propagates out of `verify_password`. -/
theorem verify_password_fallback (p pw s : List Char) :
    verify_password p (.argon2 pw) = .ok (decide (p = pw)) ∧
    verify_password p (.pbkdf2 pw) = .ok (decide (p = pw)) ∧
    verify_password p (.corrupt s) = .error .unknownHash := by
  refine ⟨?_, rfl, rfl⟩
  by_cases h : p = pw <;> simp [verify_password, argon2LibVerify, h]

/-! ### Login rate limiter — src/app/middleware/rate_limiting.py

Per-client-IP slice of the global rate-limiter state. Wall-clock time is a
rational. `attempts` mirrors `login_attempts[ip]`, `failedCount` mirrors
`failed_attempts[ip]` (absent key = 0), `blockedMem` mirrors
`ip ∈ blocked_ips`, and `blockedUntil` mirrors the `_blocked_until[ip]`
entry. The middleware is installed in src/app/main.py with its default
`max_failures = 3`. Responses record the status, the `Retry-After` header
value, and whether the wrapped handler was invoked (both 429 branches are
raised before `call_next`). -/

structure IPState where
  attempts : List ℚ
  failedCount : ℕ
  blockedMem : Bool
  blockedUntil : Option ℚ
deriving DecidableEq

structure Resp where
  status : ℕ
  retryAfter : Option ℕ
  fromHandler : Bool
deriving DecidableEq

/-- `_is_ip_blocked`: membership check with lazy expiry — an expired block is
removed on access and the check then reports unblocked. -/
def is_ip_blocked (s : IPState) (now : ℚ) : Bool × IPState :=
  if s.blockedMem then
    if s.blockedUntil.getD 0 < now then
      (false, { s with blockedMem := false, blockedUntil := none })
    else (true, s)
  else (false, s)

/-- `_cleanup_old_attempts`: keep only attempts strictly younger than 60s.
(When the IP has no entry the defaultdict holds `[]`, and filtering `[]` is
the identity, so the membership guard in the source is immaterial.) -/
def cleanup_old_attempts (s : IPState) (now : ℚ) : IPState :=
  { s with attempts := s.attempts.filter (fun ts => decide (now - ts < 60)) }

/-- `RateLimitingMiddleware.dispatch` restricted to one client IP: on a POST
to a login path, check the block first, then prune, append the current
attempt, and reject with 429/`Retry-After: 60` when the window holds at least
`maxFailures` attempts; otherwise (and on any non-login request) run the
handler, which returns `handlerStatus`. -/
def dispatch (maxFailures : ℕ) (s : IPState) (now : ℚ)
    (method path : String) (handlerStatus : ℕ) : Resp × IPState :=
  if method = "POST" ∧ (path = "/api/v1/auth/login" ∨ path = "/auth/login") then
    let b := is_ip_blocked s now
    if b.1 then (⟨429, some 60, false⟩, b.2)
    else
      let s2 := cleanup_old_attempts b.2 now
      let s3 := { s2 with attempts := s2.attempts ++ [now] }
      if maxFailures ≤ s3.attempts.length then (⟨429, some 60, false⟩, s3)
      else (⟨handlerStatus, none, true⟩, s3)
  else (⟨handlerStatus, none, true⟩, s)

/-- `record_failed_attempt`: increment the failure count; from the fifth
failure on, add the IP to the blocked set for 900 seconds. -/
def record_failed_attempt (s : IPState) (now : ℚ) : IPState :=
  let fc := s.failedCount + 1
  if 5 ≤ fc then
    { s with failedCount := fc, blockedMem := true, blockedUntil := some (now + 900) }
  else { s with failedCount := fc }

/-- `record_successful_attempt`: reset the failure count and unblock. -/
def record_successful_attempt (s : IPState) : IPState :=
  let s1 := { s with failedCount := 0 }
  if s1.blockedMem then { s1 with blockedMem := false, blockedUntil := none } else s1

/-- States the request pipeline can actually put a fresh IP into: the
middleware's `dispatch` is the only code in the application that mutates the
rate-limiter state (`record_failed_attempt` / `record_successful_attempt`
have no callers outside the middleware class itself). -/
inductive DispatchReachable : IPState → Prop where
  | init : DispatchReachable ⟨[], 0, false, none⟩
  | step (s : IPState) (mf : ℕ) (now : ℚ) (m p : String) (hs : ℕ) :
      DispatchReachable s → DispatchReachable (dispatch mf s now m p hs).2

theorem dispatch_login_unblocked (mf : ℕ) (s : IPState) (now : ℚ) (hs : ℕ)
    (h : s.blockedMem = false) :
    dispatch mf s now "POST" "/api/v1/auth/login" hs =
      (if mf ≤ (s.attempts.filter (fun ts => decide (now - ts < 60)) ++ [now]).length then
        (⟨429, some 60, false⟩,
         ⟨s.attempts.filter (fun ts => decide (now - ts < 60)) ++ [now],
          s.failedCount, false, s.blockedUntil⟩)
      else
        (⟨hs, none, true⟩,
         ⟨s.attempts.filter (fun ts => decide (now - ts < 60)) ++ [now],
          s.failedCount, false, s.blockedUntil⟩)) := by
  obtain ⟨a, f, b, u⟩ := s
  simp only at h
  subst h
  rw [dispatch, if_pos ⟨rfl, Or.inl rfl⟩]
  simp [is_ip_blocked, cleanup_old_attempts]

theorem dispatch_login_blocked (mf : ℕ) (s : IPState) (now : ℚ) (hs : ℕ)
    (h : s.blockedMem = true) (h2 : ¬ s.blockedUntil.getD 0 < now) :
    dispatch mf s now "POST" "/api/v1/auth/login" hs = (⟨429, some 60, false⟩, s) := by
  rw [dispatch, if_pos ⟨rfl, Or.inl rfl⟩]
  simp [is_ip_blocked, h, h2]

theorem dispatch_login_expired (mf : ℕ) (s : IPState) (now : ℚ) (hs : ℕ)
    (h : s.blockedMem = true) (h2 : s.blockedUntil.getD 0 < now) :
    dispatch mf s now "POST" "/api/v1/auth/login" hs =
      (if mf ≤ (s.attempts.filter (fun ts => decide (now - ts < 60)) ++ [now]).length then
        (⟨429, some 60, false⟩,
         ⟨s.attempts.filter (fun ts => decide (now - ts < 60)) ++ [now],
          s.failedCount, false, none⟩)
      else
        (⟨hs, none, true⟩,
         ⟨s.attempts.filter (fun ts => decide (now - ts < 60)) ++ [now],
          s.failedCount, false, none⟩)) := by
  obtain ⟨a, f, b, u⟩ := s
  simp only at h
  subst h
  rw [dispatch, if_pos ⟨rfl, Or.inl rfl⟩]
  simp only at h2
  simp [is_ip_blocked, h2, cleanup_old_attempts]

theorem dispatch_keeps_unblocked (mf : ℕ) (s : IPState) (now : ℚ)
    (m p : String) (hs : ℕ) (h : s.blockedMem = false) :
    (dispatch mf s now m p hs).2.blockedMem = false := by
  rw [dispatch]
  split
  · have hb : is_ip_blocked s now = (false, s) := by simp [is_ip_blocked, h]
    rw [hb]
    simp only [cleanup_old_attempts]
    split
    all_goals simp [h]
    split <;> rfl
  · exact h

/-- Every rate-limiter state the request pipeline can reach has the IP
outside the blocked set, because nothing in the application calls the
blocking-side recorders. -/
theorem reachable_not_blocked (s : IPState) (h : DispatchReachable s) :
    s.blockedMem = false := by
  induction h with
  | init => rfl
  | step s mf now m p hs _ ih => exact dispatch_keeps_unblocked mf s now m p hs ih

theorem filter_stale (l : List ℚ) (t : ℚ) (h : ∀ ts ∈ l, 60 ≤ t - ts) :
    l.filter (fun ts => decide (t - ts < 60)) = [] := by
  induction l with
  | nil => rfl
  | cons a as ih =>
    have ha : ¬ (t - a < 60) := by
      have := h a (by simp)
      linarith
    simp only [List.filter_cons, decide_eq_true_eq, if_neg ha]
    exact ih fun ts hts => h ts (by simp [hts])

/-- C1: from any pipeline-reachable state whose recorded attempts are all at
least 60 seconds old, three POSTs to the login path within 60 seconds with
always-failing credentials are answered 401, 401, 429: the first two reach
the handler (which returns 401), while the third is rejected with 429 and
`Retry-After: 60` before the handler runs, the limit counting request
attempts themselves. -/
theorem login_rate_limit_three_strikes (s : IPState) (t1 t2 t3 : ℚ)
    (hr : DispatchReachable s)
    (hstale : ∀ ts ∈ s.attempts, 60 ≤ t1 - ts)
    (h12 : t1 ≤ t2) (h23 : t2 ≤ t3) (hwin : t3 - t1 < 60) :
    (dispatch 3 s t1 "POST" "/api/v1/auth/login" 401).1 = ⟨401, none, true⟩ ∧
    (dispatch 3 (dispatch 3 s t1 "POST" "/api/v1/auth/login" 401).2
      t2 "POST" "/api/v1/auth/login" 401).1 = ⟨401, none, true⟩ ∧
    (dispatch 3 (dispatch 3 (dispatch 3 s t1 "POST" "/api/v1/auth/login" 401).2
      t2 "POST" "/api/v1/auth/login" 401).2
      t3 "POST" "/api/v1/auth/login" 401).1 = ⟨429, some 60, false⟩ := by
  have hb : s.blockedMem = false := reachable_not_blocked s hr
  have hf1 : t2 - t1 < 60 := by linarith
  have hf2 : t3 - t1 < 60 := by linarith
  have hf3 : t3 - t2 < 60 := by linarith
  have e1 : dispatch 3 s t1 "POST" "/api/v1/auth/login" 401 =
      (⟨401, none, true⟩, ⟨[t1], s.failedCount, false, s.blockedUntil⟩) := by
    rw [dispatch_login_unblocked 3 s t1 401 hb, filter_stale s.attempts t1 hstale]
    norm_num
  have e2 : dispatch 3 (⟨[t1], s.failedCount, false, s.blockedUntil⟩ : IPState)
      t2 "POST" "/api/v1/auth/login" 401 =
      (⟨401, none, true⟩, ⟨[t1, t2], s.failedCount, false, s.blockedUntil⟩) := by
    rw [dispatch_login_unblocked 3 _ t2 401 rfl]
    simp [List.filter, hf1]
  have e3 : dispatch 3 (⟨[t1, t2], s.failedCount, false, s.blockedUntil⟩ : IPState)
      t3 "POST" "/api/v1/auth/login" 401 =
      (⟨429, some 60, false⟩, ⟨[t1, t2, t3], s.failedCount, false, s.blockedUntil⟩) := by
    rw [dispatch_login_unblocked 3 _ t3 401 rfl]
    simp [List.filter, hf2, hf3]
  rw [e1, e2, e3]
  exact ⟨rfl, rfl, rfl⟩

/-- Witness for C1 starting from the initial state at times 0, 1, 2. -/
theorem login_rate_limit_three_strikes_witness :
    DispatchReachable ⟨[], 0, false, none⟩ ∧
    ((dispatch 3 ⟨[], 0, false, none⟩ 0 "POST" "/api/v1/auth/login" 401).1 = ⟨401, none, true⟩ ∧
     (dispatch 3 (dispatch 3 ⟨[], 0, false, none⟩ 0 "POST" "/api/v1/auth/login" 401).2
       1 "POST" "/api/v1/auth/login" 401).1 = ⟨401, none, true⟩ ∧
     (dispatch 3 (dispatch 3 (dispatch 3 ⟨[], 0, false, none⟩ 0 "POST" "/api/v1/auth/login" 401).2
       1 "POST" "/api/v1/auth/login" 401).2
       2 "POST" "/api/v1/auth/login" 401).1 = ⟨429, some 60, false⟩) :=
  ⟨DispatchReachable.init,
   login_rate_limit_three_strikes ⟨[], 0, false, none⟩ 0 1 2 DispatchReachable.init
     (by simp) (by norm_num) (by norm_num) (by norm_num)⟩

/-- C2: the fifth recorded failure blocks the IP with expiry 900 seconds
later; while the block is live every login-path POST is rejected with 429
regardless of the attempt window; past the 900-second mark the block is
cleared lazily on the next access; and recording a successful login resets
the failure count to 0 and clears the blocked state at once. -/
theorem lockout_after_five_failures (s : IPState) (t5 t t' : ℚ) (s2 : IPState)
    (h4 : s.failedCount = 4) (ht : t ≤ t5 + 900) (ht' : t5 + 900 < t') :
    (record_failed_attempt s t5).failedCount = 5 ∧
    (record_failed_attempt s t5).blockedMem = true ∧
    (record_failed_attempt s t5).blockedUntil = some (t5 + 900) ∧
    (dispatch 3 (record_failed_attempt s t5) t "POST" "/api/v1/auth/login" 401).1 =
      ⟨429, some 60, false⟩ ∧
    (dispatch 3 (record_failed_attempt s t5) t' "POST" "/api/v1/auth/login" 401).2.blockedMem
      = false ∧
    (dispatch 3 (record_failed_attempt s t5) t' "POST" "/api/v1/auth/login" 401).2.blockedUntil
      = none ∧
    (record_successful_attempt s2).failedCount = 0 ∧
    (record_successful_attempt s2).blockedMem = false ∧
    (record_successful_attempt (record_failed_attempt s t5)).blockedUntil = none := by
  have e5 : record_failed_attempt s t5 =
      { s with failedCount := 5, blockedMem := true, blockedUntil := some (t5 + 900) } := by
    rw [record_failed_attempt]
    simp [h4]
  have hnb : ¬ (record_failed_attempt s t5).blockedUntil.getD 0 < t := by
    rw [e5]
    simpa using not_lt.mpr ht
  have hxp : (record_failed_attempt s t5).blockedUntil.getD 0 < t' := by
    rw [e5]
    simpa using ht'
  have hmem : (record_failed_attempt s t5).blockedMem = true := by rw [e5]
  have hblocked := dispatch_login_blocked 3 (record_failed_attempt s t5) t 401 hmem hnb
  have hexpired := dispatch_login_expired 3 (record_failed_attempt s t5) t' 401 hmem hxp
  refine ⟨by rw [e5], hmem, by rw [e5], by rw [hblocked], ?_, ?_, ?_, ?_, ?_⟩
  · rw [hexpired]
    split <;> rfl
  · rw [hexpired]
    split <;> rfl
  · rw [record_successful_attempt]
    split <;> rfl
  · rw [record_successful_attempt]
    split
    · rfl
    · next hb => simpa using hb
  · rw [record_successful_attempt, e5]
    simp

/-- Witness for C2 at a state with four prior failures, fifth failure at
time 0, a blocked-window probe at time 900, and an access at time 901. -/
theorem lockout_after_five_failures_witness :
    ((⟨[], 4, false, none⟩ : IPState).failedCount = 4 ∧ (900 : ℚ) ≤ 0 + 900 ∧ (0 : ℚ) + 900 < 901) ∧
    ((record_failed_attempt ⟨[], 4, false, none⟩ 0).failedCount = 5 ∧
     (record_failed_attempt ⟨[], 4, false, none⟩ 0).blockedMem = true ∧
     (record_failed_attempt ⟨[], 4, false, none⟩ 0).blockedUntil = some (0 + 900) ∧
     (dispatch 3 (record_failed_attempt ⟨[], 4, false, none⟩ 0) 900
       "POST" "/api/v1/auth/login" 401).1 = ⟨429, some 60, false⟩ ∧
     (dispatch 3 (record_failed_attempt ⟨[], 4, false, none⟩ 0) 901
       "POST" "/api/v1/auth/login" 401).2.blockedMem = false ∧
     (dispatch 3 (record_failed_attempt ⟨[], 4, false, none⟩ 0) 901
       "POST" "/api/v1/auth/login" 401).2.blockedUntil = none ∧
     (record_successful_attempt ⟨[0], 7, true, some 3⟩).failedCount = 0 ∧
     (record_successful_attempt ⟨[0], 7, true, some 3⟩).blockedMem = false ∧
     (record_successful_attempt (record_failed_attempt ⟨[], 4, false, none⟩ 0)).blockedUntil
       = none) :=
  ⟨⟨rfl, by norm_num, by norm_num⟩,
   lockout_after_five_failures ⟨[], 4, false, none⟩ 0 900 901 ⟨[0], 7, true, some 3⟩
     rfl (by norm_num) (by norm_num)⟩

/-! ### Configuration, tokens and the auth service —
src/app/core/config.py, src/app/core/auth.py, src/app/services/auth_service.py

A JWT is modelled by its claims together with the secret it was signed with
and its algorithm; `jose.jwt.decode(token, key, algorithms=[alg])` succeeds
exactly when the signature verifies under `key`, the algorithm matches, and
the `exp` claim has not passed (any `JWTError` becomes
`UnauthorizedError("Invalid token")`). -/

structure Settings where
  SECRET_KEY : String
  SECRET_KEY_PREVIOUS : Option String
  ALGORITHM : String
  ACCESS_TOKEN_EXPIRE_MINUTES : ℕ
deriving DecidableEq

structure TokenClaims where
  sub : Option String
  username : Option String
  exp : ℚ
deriving DecidableEq

structure SignedToken where
  claims : TokenClaims
  signedWith : String
  alg : String
deriving DecidableEq

/-- `ApiError` hierarchy of src/app/core/exceptions.py, collapsed to its
code/message/status payload. -/
structure ApiError where
  code : String
  message : String
  status : ℕ
deriving DecidableEq

def unauthorizedError (m : String) : ApiError := ⟨"unauthorized", m, 401⟩

def notFoundError (m : String) : ApiError := ⟨"not_found", m, 404⟩

def validationError (m : String) : ApiError := ⟨"validation_error", m, 422⟩

/-- `create_access_token` as called by the auth service (no explicit delta):
`exp = now + ACCESS_TOKEN_EXPIRE_MINUTES` minutes, signed with
`settings.SECRET_KEY` under `settings.ALGORITHM`. -/
def create_access_token (cfg : Settings) (now : ℚ)
    (sub username : Option String) : SignedToken :=
  ⟨⟨sub, username, now + cfg.ACCESS_TOKEN_EXPIRE_MINUTES * 60⟩,
   cfg.SECRET_KEY, cfg.ALGORITHM⟩

/-- `verify_token` (src/app/core/auth.py): decodes with `settings.SECRET_KEY`
and `[settings.ALGORITHM]`; every `JWTError` (bad signature, wrong algorithm,
expired) becomes `UnauthorizedError("Invalid token")`. -/
def verify_token (cfg : Settings) (now : ℚ) (t : SignedToken) :
    Except ApiError TokenClaims :=
  if t.signedWith = cfg.SECRET_KEY ∧ t.alg = cfg.ALGORITHM ∧ ¬ t.claims.exp < now then
    .ok t.claims
  else .error (unauthorizedError "Invalid token")

/-- Decimal value of a digit string. -/
def digitsVal (ds : List Char) : ℤ :=
  ds.foldl (fun acc c => acc * 10 + (c.toNat - 48 : ℕ)) 0

/-- Python `int(s)` on canonical decimal strings: an optional minus sign
followed by digits; anything else raises `ValueError`, modelled as `none`. -/
def pyIntParse (s : String) : Option ℤ :=
  match s.toList with
  | [] => none
  | '-' :: ds =>
    if ds ≠ [] ∧ ds.all Char.isDigit then some (-(digitsVal ds)) else none
  | ds => if ds.all Char.isDigit then some (digitsVal ds) else none

structure User where
  id : ℤ
  username : String
  email : String
  created_at : ℚ
  hashedPassword : StoredHash

structure UserSummary where
  id : ℤ
  username : String
  email : String
  created_at : ℚ
deriving DecidableEq

structure UserLogin where
  username : String
  password : List Char

/-- An exception escaping the service layer: either a domain `ApiError` or an
uncaught Python library exception. -/
inductive Exc where
  | api (e : ApiError)
  | py (e : PyErr)
deriving DecidableEq

structure LoginResult where
  user : UserSummary
  access_token : SignedToken
  token_type : String
deriving DecidableEq

/-- `AuthService.login_user`: look up by username or email (abstracted as
`find`), fail Unauthorized when absent, verify the password, fail
Unauthorized with the same message on mismatch, otherwise issue a token. -/
def login_user (find : String → Option User) (cfg : Settings) (now : ℚ)
    (login : UserLogin) : Except Exc LoginResult :=
  match find login.username with
  | none => .error (.api (unauthorizedError "Invalid username or password"))
  | some u =>
    match verify_password login.password u.hashedPassword with
    | .error e => .error (.py e)
    | .ok false => .error (.api (unauthorizedError "Invalid username or password"))
    | .ok true =>
      .ok ⟨⟨u.id, u.username, u.email, u.created_at⟩,
           create_access_token cfg now (some (toString u.id)) (some u.username),
           "bearer"⟩

/-- `AuthService.get_current_user`: verify the token, read and parse `sub`,
load the user, and fail `NotFoundError("User not found")` when the account no
longer exists. -/
def get_current_user (repoGet : ℤ → Option User) (cfg : Settings) (now : ℚ)
    (token : SignedToken) : Except ApiError UserSummary :=
  match verify_token cfg now token with
  | .error e => .error e
  | .ok payload =>
    match payload.sub with
    | none => .error (unauthorizedError "Invalid token")
    | some sub =>
      match pyIntParse sub with
      | none => .error (unauthorizedError "Invalid user ID in token")
      | some uid =>
        match repoGet uid with
        | none => .error (notFoundError "User not found")
        | some u => .ok ⟨u.id, u.username, u.email, u.created_at⟩

/-- `AuthService.refresh_token`: resolve the current user, then issue a fresh
token. -/
def refresh_token (repoGet : ℤ → Option User) (cfg : Settings) (now : ℚ)
    (token : SignedToken) : Except ApiError (SignedToken × String) :=
  match get_current_user repoGet cfg now token with
  | .error e => .error e
  | .ok u =>
    .ok (create_access_token cfg now (some (toString u.id)) (some u.username), "bearer")

/-- Final status and detail of `GET /auth/me`: the dependency in
src/app/api/dependencies/auth.py turns an `UnauthorizedError` into HTTP 401
with its message and any other exception into HTTP 401
"Could not validate credentials". -/
def me_endpoint (repoGet : ℤ → Option User) (cfg : Settings) (now : ℚ)
    (token : SignedToken) : ℕ × String :=
  match get_current_user repoGet cfg now token with
  | .ok _ => (200, "")
  | .error e =>
    if e.code = "unauthorized" then (401, e.message)
    else (401, "Could not validate credentials")

/-- Final status and detail of `POST /auth/refresh`: the router
(src/app/api/v1/routers/auth.py) re-raises `UnauthorizedError` and lets every
other `ApiError` propagate; `ErrorHandlerMiddleware` then renders an
`ApiError` with its own `status` and `message`. -/
def refresh_endpoint (repoGet : ℤ → Option User) (cfg : Settings) (now : ℚ)
    (token : SignedToken) : ℕ × String :=
  match refresh_token repoGet cfg now token with
  | .ok _ => (200, "")
  | .error e => (e.status, e.message)

/-- C5 counterexample: with a current secret "current" and configured
previous secret "previous", an unexpired well-formed token signed with the
previous secret is rejected by `verify_token` — the rotation secret is never
consulted during verification. -/
theorem verify_token_rejects_previous_secret :
    verify_token ⟨"current", some "previous", "HS256", 30⟩ 0
      ⟨⟨some "7", some "u", 100⟩, "previous", "HS256"⟩ =
      .error (unauthorizedError "Invalid token") := by
  rw [verify_token, if_neg]
  intro h
  exact absurd h.1 (by decide)

/-- C5 amended: issuance signs with the current secret only, and verification
also accepts only the current secret: its result is entirely independent of
`SECRET_KEY_PREVIOUS`, which is read from the environment but never used. -/
theorem token_signing_uses_current_secret_only (cfg : Settings) (now : ℚ)
    (sub username : Option String) (p : Option String) (t : SignedToken) :
    (create_access_token cfg now sub username).signedWith = cfg.SECRET_KEY ∧
    verify_token { cfg with SECRET_KEY_PREVIOUS := p } now t = verify_token cfg now t := by
  obtain ⟨k, kp, alg, m⟩ := cfg
  exact ⟨rfl, rfl⟩

/-- C4 counterexample: for a valid unexpired token whose subject no longer
exists, the service fails NotFound and `GET /auth/me` answers 401, but
`POST /auth/refresh` answers 404 with "User not found", not 401. -/
theorem refresh_leaks_404_on_deleted_account :
    get_current_user (fun _ => none) ⟨"k", none, "HS256", 30⟩ 0
      ⟨⟨some "7", some "u", 100⟩, "k", "HS256"⟩ =
      .error (notFoundError "User not found") ∧
    me_endpoint (fun _ => none) ⟨"k", none, "HS256", 30⟩ 0
      ⟨⟨some "7", some "u", 100⟩, "k", "HS256"⟩ =
      (401, "Could not validate credentials") ∧
    refresh_endpoint (fun _ => none) ⟨"k", none, "HS256", 30⟩ 0
      ⟨⟨some "7", some "u", 100⟩, "k", "HS256"⟩ = (404, "User not found") :=
  ⟨rfl, rfl, rfl⟩

/-- C4 amended: a syntactically valid, unexpired token whose subject id
references a deleted account makes `get_current_user` fail
`NotFoundError("User not found")`; the `/auth/me` dependency collapses that
failure to 401 "Could not validate credentials", while the `/auth/refresh`
route propagates it and the error middleware renders it as 404. -/
theorem deleted_account_token_statuses (repoGet : ℤ → Option User) (cfg : Settings)
    (now : ℚ) (t : SignedToken) (sub : String) (n : ℤ)
    (hkey : t.signedWith = cfg.SECRET_KEY) (halg : t.alg = cfg.ALGORITHM)
    (hexp : ¬ t.claims.exp < now) (hsub : t.claims.sub = some sub)
    (hparse : pyIntParse sub = some n) (hgone : repoGet n = none) :
    get_current_user repoGet cfg now t = .error (notFoundError "User not found") ∧
    me_endpoint repoGet cfg now t = (401, "Could not validate credentials") ∧
    refresh_endpoint repoGet cfg now t = (404, "User not found") := by
  have hv : verify_token cfg now t = .ok t.claims := by
    rw [verify_token, if_pos ⟨hkey, halg, hexp⟩]
  have hs : get_current_user repoGet cfg now t = .error (notFoundError "User not found") := by
    simp only [get_current_user, hv, hsub, hparse, hgone]
  refine ⟨hs, ?_, ?_⟩
  · simp only [me_endpoint, hs]
    rfl
  · simp only [refresh_endpoint, refresh_token, hs]
    rfl

/-- Witness for C4 amended on a concrete deleted-account token. -/
theorem deleted_account_token_statuses_witness :
    (pyIntParse "7" = some 7 ∧ ¬ (100 : ℚ) < 0) ∧
    (get_current_user (fun _ => none) ⟨"w", none, "HS256", 30⟩ 0
       ⟨⟨some "7", some "w-user", 100⟩, "w", "HS256"⟩ =
       .error (notFoundError "User not found") ∧
     me_endpoint (fun _ => none) ⟨"w", none, "HS256", 30⟩ 0
       ⟨⟨some "7", some "w-user", 100⟩, "w", "HS256"⟩ =
       (401, "Could not validate credentials") ∧
     refresh_endpoint (fun _ => none) ⟨"w", none, "HS256", 30⟩ 0
       ⟨⟨some "7", some "w-user", 100⟩, "w", "HS256"⟩ = (404, "User not found")) :=
  ⟨⟨rfl, by norm_num⟩,
   deleted_account_token_statuses (fun _ => none) ⟨"w", none, "HS256", 30⟩ 0
     ⟨⟨some "7", some "w-user", 100⟩, "w", "HS256"⟩ "7" 7
     rfl rfl (by norm_num) rfl rfl rfl⟩

/-- C6: a login with a username matching no account and a login with an
existing username but a wrong password fail with literally the same error:
code "unauthorized", status 401 and message "Invalid username or password". -/
theorem login_enumeration_resistance (find : String → Option User) (cfg : Settings)
    (now : ℚ) (uname1 : String) (pw1 : List Char) (uname2 : String) (pw2 : List Char)
    (u : User) (stored : List Char)
    (h1 : find uname1 = none) (h2 : find uname2 = some u)
    (hh : u.hashedPassword = .argon2 stored) (hw : pw2 ≠ stored) :
    login_user find cfg now ⟨uname1, pw1⟩ =
      .error (.api ⟨"unauthorized", "Invalid username or password", 401⟩) ∧
    login_user find cfg now ⟨uname2, pw2⟩ =
      .error (.api ⟨"unauthorized", "Invalid username or password", 401⟩) := by
  constructor
  · simp only [login_user, h1]
    rfl
  · have hv : verify_password pw2 u.hashedPassword = .ok false := by
      rw [hh]
      simp [verify_password, argon2LibVerify, hw]
    simp only [login_user, h2, hv]
    rfl

/-- Witness for C6 with a one-user repository. -/
theorem login_enumeration_resistance_witness :
    ((fun s => if s = "realuser" then some (⟨1, "realuser", "r@example.com", 0,
        .argon2 ['p', 'w']⟩ : User) else none) "nosuchuser" = none ∧
     (fun s => if s = "realuser" then some (⟨1, "realuser", "r@example.com", 0,
        .argon2 ['p', 'w']⟩ : User) else none) "realuser" = some
        ⟨1, "realuser", "r@example.com", 0, .argon2 ['p', 'w']⟩ ∧
     (['x'] : List Char) ≠ ['p', 'w']) ∧
    (login_user (fun s => if s = "realuser" then some (⟨1, "realuser", "r@example.com", 0,
        .argon2 ['p', 'w']⟩ : User) else none) ⟨"k", none, "HS256", 30⟩ 0
        ⟨"nosuchuser", ['x']⟩ =
      .error (.api ⟨"unauthorized", "Invalid username or password", 401⟩) ∧
     login_user (fun s => if s = "realuser" then some (⟨1, "realuser", "r@example.com", 0,
        .argon2 ['p', 'w']⟩ : User) else none) ⟨"k", none, "HS256", 30⟩ 0
        ⟨"realuser", ['x']⟩ =
      .error (.api ⟨"unauthorized", "Invalid username or password", 401⟩)) :=
  ⟨⟨rfl, rfl, by decide⟩,
   login_enumeration_resistance _ ⟨"k", none, "HS256", 30⟩ 0 "nosuchuser" ['x']
     "realuser" ['x'] ⟨1, "realuser", "r@example.com", 0, .argon2 ['p', 'w']⟩
     ['p', 'w'] rfl rfl rfl (by decide)⟩

/-! ### Input validators — src/app/validators/auth_validators.py,
src/app/schemas/user.py, src/app/validators/wish_validators.py,
src/app/api/v1/routers/wishes.py -/

/-- CPython `re.match(r"^[cls]+$", s)` as a recognizer, for a character class
`cls` not containing the newline: `$` matches at the end of the string or
just before a single newline at the end of the string, so the pattern accepts
a nonempty run of class characters optionally followed by one final
newline. -/
def pyMatchPlusDollar (cls : Char → Bool) (s : List Char) : Bool :=
  if s.getLast? = some '\n' then !s.dropLast.isEmpty && s.dropLast.all cls
  else !s.isEmpty && s.all cls

/-- Character class `[a-zA-Z0-9_]` of `AuthValidators.validate_username`. -/
def usernameCharAuth (c : Char) : Bool :=
  (decide ('a' ≤ c) && decide (c ≤ 'z')) || (decide ('A' ≤ c) && decide (c ≤ 'Z')) ||
    (decide ('0' ≤ c) && decide (c ≤ '9')) || decide (c = '_')

/-- Character class `[a-zA-Z0-9_-]` of the schema validator
`UserBase.validate_username` (also the charset named by the spec). -/
def usernameCharSchema (c : Char) : Bool :=
  usernameCharAuth c || decide (c = '-')

/-- `AuthValidators.validate_username` (src/app/validators/auth_validators.py):
required, length 3 to 50, then `re.match(r"^[a-zA-Z0-9_]+$", username)`. -/
def AuthValidators.validate_username (username : List Char) : Except ApiError Unit :=
  if username.isEmpty then .error (validationError "Username is required")
  else if username.length < 3 then
    .error (validationError "Username must be at least 3 characters long")
  else if username.length > 50 then
    .error (validationError "Username must be no more than 50 characters long")
  else if !pyMatchPlusDollar usernameCharAuth username then
    .error (validationError "Username can only contain letters, numbers, and underscores")
  else .ok ()

/-- `UserBase.validate_username` (src/app/schemas/user.py) combined with the
pydantic `Field(min_length=3, max_length=50)` bounds on the same field:
length 3 to 50, then `re.match(r"^[a-zA-Z0-9_-]+$", v)`. -/
def UserBase.validate_username (v : List Char) : Except ApiError Unit :=
  if v.length < 3 then
    .error (validationError "String should have at least 3 characters")
  else if v.length > 50 then
    .error (validationError "String should have at most 50 characters")
  else if !pyMatchPlusDollar usernameCharSchema v then
    .error (validationError "Username must contain only letters, numbers, dashes and underscores")
  else .ok ()

theorem pyMatchPlusDollar_iff (cls : Char → Bool) (s : List Char) (h3 : 3 ≤ s.length) :
    pyMatchPlusDollar cls s = true ↔
      (s.all cls = true ∨
        (s.getLast? = some '\n' ∧ s.dropLast.all cls = true)) := by
  have hcons : s.isEmpty = false := by
    cases s with
    | nil => simp at h3
    | cons a as => rfl
  have hdrop : s.dropLast.isEmpty = false := by
    have hlen := List.length_dropLast s
    cases hdl : s.dropLast with
    | nil =>
      rw [hdl] at hlen
      simp at hlen
      omega
    | cons a as => rfl
  rw [pyMatchPlusDollar]
  split_ifs with hl
  · simp only [hdrop, Bool.not_false, Bool.true_and]
    constructor
    · intro h
      exact Or.inr ⟨hl, h⟩
    · rintro (hall | ⟨_, h⟩)
      · rw [List.all_eq_true] at hall ⊢
        exact fun x hx => hall x ((List.dropLast_sublist s).subset hx)
      · exact h
  · simp only [hcons, Bool.not_false, Bool.true_and]
    constructor
    · intro h
      exact Or.inl h
    · rintro (hall | ⟨hlast, _⟩)
      · exact hall
      · exact absurd hlast hl

theorem validate_username_auth_ok_iff (s : List Char) :
    AuthValidators.validate_username s = .ok () ↔
      (¬ s.length < 3 ∧ ¬ s.length > 50 ∧ pyMatchPlusDollar usernameCharAuth s = true) := by
  rw [AuthValidators.validate_username]
  split_ifs with h1 h2 h3 h4
  · constructor
    · exact fun h => h.elim
    · rintro ⟨ha, _, _⟩
      cases s with
      | nil => exact ha (by simp)
      | cons a as => exact Bool.noConfusion h1
  · exact ⟨fun h => h.elim, fun h => absurd h2 h.1⟩
  · exact ⟨fun h => h.elim, fun h => absurd h3 h.2.1⟩
  · constructor
    · exact fun h => h.elim
    · rintro ⟨_, _, hc⟩
      rw [hc] at h4
      exact Bool.noConfusion h4
  · refine ⟨fun _ => ⟨h2, h3, ?_⟩, fun _ => rfl⟩
    simpa using h4

theorem validate_username_schema_ok_iff (s : List Char) :
    UserBase.validate_username s = .ok () ↔
      (¬ s.length < 3 ∧ ¬ s.length > 50 ∧ pyMatchPlusDollar usernameCharSchema s = true) := by
  rw [UserBase.validate_username]
  split_ifs with h1 h2 h3
  · exact ⟨fun h => h.elim, fun h => absurd h1 h.1⟩
  · exact ⟨fun h => h.elim, fun h => absurd h2 h.2.1⟩
  · constructor
    · exact fun h => h.elim
    · rintro ⟨_, _, hc⟩
      rw [hc] at h3
      exact Bool.noConfusion h3
  · refine ⟨fun _ => ⟨h1, h2, ?_⟩, fun _ => rfl⟩
    simpa using h3

/-- C7 counterexample: "abc-def" has length 7 and uses only characters of the
claimed charset [A-Za-z0-9_-], yet `AuthValidators.validate_username` rejects
it (its regex has no hyphen); conversely "abcd\n" ends in a newline, which is
outside the charset, yet the schema validator accepts it because Python `$`
also matches just before a trailing newline. -/
theorem validate_username_counterexample :
    AuthValidators.validate_username "abc-def".toList ≠ .ok () ∧
    ("abc-def".toList).all usernameCharSchema = true ∧
    ("abc-def".toList).length = 7 ∧
    UserBase.validate_username "abcd\n".toList = .ok () ∧
    usernameCharSchema '\n' = false := by
  refine ⟨fun h => Except.noConfusion h, by decide, by decide, rfl, by decide⟩

/-- C7 amended: the schema validator `UserBase.validate_username` accepts a
string iff its length is 3–50 and either all its characters lie in
[A-Za-z0-9_-] or all but a single trailing newline do (a CPython `$`-anchor
artifact); `AuthValidators.validate_username` accepts iff the same holds for
the narrower charset [A-Za-z0-9_], which excludes the hyphen. -/
theorem validate_username_characterization (s : List Char) :
    (UserBase.validate_username s = .ok () ↔
      3 ≤ s.length ∧ s.length ≤ 50 ∧
      (s.all usernameCharSchema = true ∨
        (s.getLast? = some '\n' ∧ s.dropLast.all usernameCharSchema = true))) ∧
    (AuthValidators.validate_username s = .ok () ↔
      3 ≤ s.length ∧ s.length ≤ 50 ∧
      (s.all usernameCharAuth = true ∨
        (s.getLast? = some '\n' ∧ s.dropLast.all usernameCharAuth = true))) := by
  constructor
  · rw [validate_username_schema_ok_iff]
    constructor
    · rintro ⟨ha, hb, hc⟩
      refine ⟨by omega, by omega, ?_⟩
      exact (pyMatchPlusDollar_iff usernameCharSchema s (by omega)).1 hc
    · rintro ⟨ha, hb, hc⟩
      refine ⟨by omega, by omega, ?_⟩
      exact (pyMatchPlusDollar_iff usernameCharSchema s ha).2 hc
  · rw [validate_username_auth_ok_iff]
    constructor
    · rintro ⟨ha, hb, hc⟩
      refine ⟨by omega, by omega, ?_⟩
      exact (pyMatchPlusDollar_iff usernameCharAuth s (by omega)).1 hc
    · rintro ⟨ha, hb, hc⟩
      refine ⟨by omega, by omega, ?_⟩
      exact (pyMatchPlusDollar_iff usernameCharAuth s ha).2 hc

/-! ### Pagination validation -/

/-- The declarative query validation on `GET /wishes`
(src/app/api/v1/routers/wishes.py): `skip` has `ge=0, le=10000`, `limit` has
`ge=1, le=50`, and `search` has `max_length=100`; a request binds its query
parameters only when all the declared constraints hold. -/
def get_wishes_query_ok (skip limit : ℤ) (search : Option String) : Bool :=
  decide (0 ≤ skip) && decide (skip ≤ 10000) &&
    decide (1 ≤ limit) && decide (limit ≤ 50) &&
    (match search with
     | none => true
     | some s => decide (s.length ≤ 100))

/-- `WishValidators.validate_pagination_params`
(src/app/validators/wish_validators.py): rejects negative `skip`,
non-positive `limit`, and `limit > 100`. -/
def WishValidators.validate_pagination_params (skip limit : ℤ) : Except ApiError Unit :=
  if skip < 0 then .error (validationError "Skip must be a non-negative integer")
  else if limit ≤ 0 then .error (validationError "Limit must be a positive integer")
  else if limit > 100 then .error (validationError "Limit cannot exceed 100")
  else .ok ()

/-- C8 counterexample: `validate_pagination_params` accepts skip = 20000 and
limit = 100, both outside the bounds the claim requires to be rejected (the
router's own query constraints do reject them). -/
theorem validate_pagination_counterexample :
    WishValidators.validate_pagination_params 20000 100 = .ok () ∧
    get_wishes_query_ok 20000 100 none = false ∧
    ¬ ((20000 : ℤ) ≤ 10000) ∧ ¬ ((100 : ℤ) ≤ 50) := by
  refine ⟨rfl, by decide, by decide, by decide⟩

/-- C8 amended: the request-level pagination validation of `GET /wishes`
accepts (skip, limit, search) iff skip ∈ [0, 10000], limit ∈ [1, 50] and the
search string, when present, has at most 100 characters; the standalone
`WishValidators.validate_pagination_params` checks only skip ≥ 0 and
limit ∈ [1, 100], with no upper bound on skip. -/
theorem pagination_validation_characterization (skip limit : ℤ) (search : Option String) :
    (get_wishes_query_ok skip limit search = true ↔
      0 ≤ skip ∧ skip ≤ 10000 ∧ 1 ≤ limit ∧ limit ≤ 50 ∧
        ∀ s, search = some s → s.length ≤ 100) ∧
    (WishValidators.validate_pagination_params skip limit = .ok () ↔
      0 ≤ skip ∧ 1 ≤ limit ∧ limit ≤ 100) := by
  constructor
  · unfold get_wishes_query_ok
    cases search with
    | none => simp [and_assoc]
    | some s =>
      simp only [Bool.and_eq_true, decide_eq_true_eq, and_assoc]
      constructor
      · rintro ⟨ha, hb, hc, hd, he⟩
        exact ⟨ha, hb, hc, hd, fun x hx => by cases hx; exact he⟩
      · rintro ⟨ha, hb, hc, hd, he⟩
        exact ⟨ha, hb, hc, hd, he s rfl⟩
  · rw [WishValidators.validate_pagination_params]
    split_ifs with h1 h2 h3
    · exact ⟨fun h => h.elim, fun h => by omega⟩
    · exact ⟨fun h => h.elim, fun h => by omega⟩
    · exact ⟨fun h => h.elim, fun h => by omega⟩
    · exact ⟨fun _ => by omega, fun _ => rfl⟩

end Wishlist
